import Mathlib

/-
Shallow embedding of src/lesson3/blefund_less3_exer2/src/main.c (the richer of
the two lesson variants; the exer1 handlers connected_cb / disconnected_cb /
button_handler coincide with on_connected / on_disconnected / button_changed
on every behaviour the claims mention).

The host Bluetooth stack is external: results of the stack calls the handlers
make (bt_conn_get_info, bt_conn_le_phy_update, bt_conn_le_data_len_update,
bt_gatt_exchange_mtu, bt_gatt_get_mtu, bt_lbs_send_button_state) are supplied
by a StackEnv oracle.  Application-visible state is the global my_conn pointer,
per-connection reference counts taken by the application (bt_conn_ref /
bt_conn_unref), the connection-status LED, the emitted log, and the trace of
requests issued to the stack.
-/

namespace BtFund

/-- Log lines emitted through LOG_INF / LOG_ERR, one constructor per distinct
call site, carrying the integer arguments that are printed. -/
inductive LogMsg where
  | connError (err : Nat)
  | connectedMsg
  | cannotGetInfo (err : Int)
  | connParams (interval timeout latency : Nat)
  | phyUpdateFailed (err : Int)
  | dataLenFailed (err : Int)
  | dataLenRequested (txLen txTime : Nat)
  | mtuExchangeFailed (err : Int)
  | mtuPending
  | disconnectedMsg (reason : Nat)
  | paramUpdated (interval latency timeout : Nat)
  | txPhyUpdated (phyOption : Nat)
  | rxPhyUpdated (phyOption : Nat)
  | dataLenInfo (txLen txTime rxLen rxTime : Nat)
  | mtuResult (success : Bool)
  | negotiatedMtu (bytes : Int)
  | buttonChangedMsg
  | notifyFailed (err : Int)
  deriving DecidableEq, Repr

/-- Parameter-negotiation requests issued to the host stack. -/
inductive Request where
  | phyUpdate (conn : Nat)
  | dataLenUpdate (conn : Nat)
  | mtuExchange (conn : Nat)
  deriving DecidableEq, Repr

/-- Oracle for the results the host stack returns to the calls made inside the
handlers, plus the bt_conn_info fields that on_connected logs. -/
structure StackEnv where
  get_info_err : Int
  info_interval : Nat
  info_timeout : Nat
  info_latency : Nat
  phy_update_err : Int
  data_len_err : Int
  mtu_exchange_err : Int
  gatt_mtu : Nat
  lbs_send_err : Int

/-- Application state: the my_conn global (none = NULL), the extra references
the application holds per connection handle, the CONNECTION_STATUS_LED, the
log, the trace of negotiation requests issued, the trace of
bt_lbs_send_button_state attempts, and a fault flag set when bt_conn_unref is
invoked on NULL. -/
structure AppState where
  my_conn : Option Nat
  refCount : Nat → Nat
  connLed : Bool
  log : List LogMsg
  requests : List Request
  sends : List Bool
  fault : Bool

def init : AppState :=
  { my_conn := none, refCount := fun _ => 0, connLed := false,
    log := [], requests := [], sends := [], fault := false }

def BT_GAP_DATA_LEN_MAX : Nat := 251
def BT_GAP_DATA_TIME_MAX : Nat := 17040
def USER_BUTTON : Nat := 1

/-- bt_conn_ref(conn): takes one more application reference on the handle. -/
def bt_conn_ref (conn : Nat) (s : AppState) : AppState :=
  { s with refCount := fun k => if k = conn then s.refCount k + 1 else s.refCount k }

/-- bt_conn_unref(p): drops a reference; on a NULL pointer this is a fault. -/
def bt_conn_unref (p : Option Nat) (s : AppState) : AppState :=
  match p with
  | none => { s with fault := true }
  | some c => { s with refCount := fun k => if k = c then s.refCount k - 1 else s.refCount k }

/-- update_phy: issues bt_conn_le_phy_update (preferred 2M PHY); logs on a
non-zero result and falls through either way. -/
def update_phy (env : StackEnv) (conn : Nat) (s : AppState) : AppState :=
  let s1 := { s with requests := s.requests ++ [Request.phyUpdate conn] }
  if env.phy_update_err ≠ 0 then
    { s1 with log := s1.log ++ [LogMsg.phyUpdateFailed env.phy_update_err] }
  else s1

/-- update_data_length: issues bt_conn_le_data_len_update with the maximum
length/time constants; logs failure and returns, else logs the request. -/
def update_data_length (env : StackEnv) (conn : Nat) (s : AppState) : AppState :=
  let s1 := { s with requests := s.requests ++ [Request.dataLenUpdate conn] }
  if env.data_len_err ≠ 0 then
    { s1 with log := s1.log ++ [LogMsg.dataLenFailed env.data_len_err] }
  else
    { s1 with log := s1.log ++ [LogMsg.dataLenRequested BT_GAP_DATA_LEN_MAX BT_GAP_DATA_TIME_MAX] }

/-- update_mtu: issues bt_gatt_exchange_mtu; logs failure and returns, else
logs that the exchange is pending. -/
def update_mtu (env : StackEnv) (conn : Nat) (s : AppState) : AppState :=
  let s1 := { s with requests := s.requests ++ [Request.mtuExchange conn] }
  if env.mtu_exchange_err ≠ 0 then
    { s1 with log := s1.log ++ [LogMsg.mtuExchangeFailed env.mtu_exchange_err] }
  else { s1 with log := s1.log ++ [LogMsg.mtuPending] }

/-- on_connected: on a non-zero event error, log and return.  Otherwise log,
take a reference and store it in my_conn, light the LED, query bt_conn_get_info
(log and return on failure), log the parameters, then call update_phy,
update_data_length and update_mtu in sequence on my_conn. -/
def on_connected (env : StackEnv) (conn : Nat) (err : Nat) (s : AppState) : AppState :=
  if err ≠ 0 then
    { s with log := s.log ++ [LogMsg.connError err] }
  else
    let s1 := { s with log := s.log ++ [LogMsg.connectedMsg] }
    let s2 := { bt_conn_ref conn s1 with my_conn := some conn }
    let s3 := { s2 with connLed := true }
    if env.get_info_err ≠ 0 then
      { s3 with log := s3.log ++ [LogMsg.cannotGetInfo env.get_info_err] }
    else
      let s4 := { s3 with log := s3.log ++
        [LogMsg.connParams env.info_interval env.info_timeout env.info_latency] }
      update_mtu env conn (update_data_length env conn (update_phy env conn s4))

/-- on_disconnected: logs the reason, turns the LED off, and unrefs whatever
my_conn currently holds; the event's conn argument is never consulted. -/
def on_disconnected (conn : Nat) (reason : Nat) (s : AppState) : AppState :=
  let s1 := { s with log := s.log ++ [LogMsg.disconnectedMsg reason] }
  let s2 := { s1 with connLed := false }
  bt_conn_unref s2.my_conn s2

/-- on_le_param_updated: log only. -/
def on_le_param_updated (conn interval latency timeout : Nat) (s : AppState) : AppState :=
  { s with log := s.log ++ [LogMsg.paramUpdated interval latency timeout] }

/-- The phy_names table of on_le_phy_updated: BT_GAP_LE_PHY_NONE,
BT_GAP_LE_PHY_1M, BT_GAP_LE_PHY_2M, BT_CONN_LE_TX_POWER_PHY_CODED_S8,
BT_CONN_LE_TX_POWER_PHY_CODED_S2 (numeric values 0,1,2,3,4). -/
def phy_names : List Nat := [0, 1, 2, 3, 4]

/-- on_le_phy_updated: for each table entry, log a TX line when it matches
info->tx_phy and an RX line when it matches info->rx_phy; nothing else. -/
def on_le_phy_updated (conn : Nat) (tx_phy rx_phy : Nat) (s : AppState) : AppState :=
  { s with log := s.log ++ phy_names.foldl (fun acc p =>
      acc ++ (if p = tx_phy then [LogMsg.txPhyUpdated p] else [])
          ++ (if p = rx_phy then [LogMsg.rxPhyUpdated p] else [])) [] }

/-- on_le_data_length_updated: log only. -/
def on_le_data_length_updated (conn txLen txTime rxLen rxTime : Nat) (s : AppState) : AppState :=
  { s with log := s.log ++ [LogMsg.dataLenInfo txLen txTime rxLen rxTime] }

/-- exchange_func: logs success/failure of the MTU exchange; on success logs
the negotiated value bt_gatt_get_mtu(conn) - 3 (3 bytes of ATT header). -/
def exchange_func (env : StackEnv) (conn : Nat) (err : Nat) (s : AppState) : AppState :=
  let s1 := { s with log := s.log ++ [LogMsg.mtuResult (err == 0)] }
  if err = 0 then
    { s1 with log := s1.log ++ [LogMsg.negotiatedMtu ((env.gatt_mtu : Int) - 3)] }
  else s1

/-- button_changed: when the user button is among the changed bits, log, call
bt_lbs_send_button_state(button_state ? true : false) unconditionally, and log
the error code when that call fails. -/
def button_changed (env : StackEnv) (button_state has_changed : Nat) (s : AppState) : AppState :=
  if has_changed &&& USER_BUTTON ≠ 0 then
    let s1 := { s with log := s.log ++ [LogMsg.buttonChangedMsg] }
    let s2 := { s1 with sends := s1.sends ++ [button_state != 0] }
    if env.lbs_send_err ≠ 0 then
      { s2 with log := s2.log ++ [LogMsg.notifyFailed env.lbs_send_err] }
    else s2
  else s

/-- Raw host-stack / button-driver events, one per callback registered through
connection_callbacks, exchange_params.func and dk_buttons_init. -/
inductive Event where
  | connected (conn err : Nat)
  | disconnected (conn reason : Nat)
  | le_param_updated (conn interval latency timeout : Nat)
  | le_phy_updated (conn tx_phy rx_phy : Nat)
  | le_data_len_updated (conn txLen txTime rxLen rxTime : Nat)
  | mtu_exchanged (conn err : Nat)
  | button (button_state has_changed : Nat)
  deriving DecidableEq, Repr

/-- Serialized dispatch of one event to its registered handler. -/
def step (env : StackEnv) (s : AppState) (e : Event) : AppState :=
  match e with
  | Event.connected c e => on_connected env c e s
  | Event.disconnected c r => on_disconnected c r s
  | Event.le_param_updated c i l t => on_le_param_updated c i l t s
  | Event.le_phy_updated c tx rx => on_le_phy_updated c tx rx s
  | Event.le_data_len_updated c a b d e => on_le_data_length_updated c a b d e s
  | Event.mtu_exchanged c e => exchange_func env c e s
  | Event.button bs hc => button_changed env bs hc s

/-- Run a sequence of events from the initial state. -/
def run (env : StackEnv) (evs : List Event) : AppState :=
  evs.foldl (step env) init

/-- The spec's ConnectionManager.active() query: the code's notion of the
current connection is the my_conn global. -/
def active (s : AppState) : Option Nat := s.my_conn

/-- Recognizer for connected events, used to phrase decidable hypotheses. -/
def isConnectedEvt : Event → Bool
  | Event.connected _ _ => true
  | _ => false

/-- A stack environment in which every call succeeds and the peer grants an
ATT MTU of 247. -/
def envOK : StackEnv :=
  { get_info_err := 0, info_interval := 40, info_timeout := 42, info_latency := 0,
    phy_update_err := 0, data_len_err := 0, mtu_exchange_err := 0,
    gatt_mtu := 247, lbs_send_err := 0 }

/-- envOK with bt_lbs_send_button_state failing with -128 (ENOTCONN), as the
stack reports when no connection exists. -/
def envNoConn : StackEnv := { envOK with lbs_send_err := -128 }

/-- envOK with the PHY and data-length update requests rejected by the stack. -/
def envNegFail : StackEnv := { envOK with phy_update_err := -5, data_len_err := -12 }

/- Helper lemmas -/

theorem update_phy_my_conn (env : StackEnv) (c : Nat) (s : AppState) :
    (update_phy env c s).my_conn = s.my_conn := by
  unfold update_phy; split <;> rfl

theorem update_data_length_my_conn (env : StackEnv) (c : Nat) (s : AppState) :
    (update_data_length env c s).my_conn = s.my_conn := by
  unfold update_data_length; split <;> rfl

theorem update_mtu_my_conn (env : StackEnv) (c : Nat) (s : AppState) :
    (update_mtu env c s).my_conn = s.my_conn := by
  unfold update_mtu; split <;> rfl

theorem update_phy_refCount (env : StackEnv) (c : Nat) (s : AppState) :
    (update_phy env c s).refCount = s.refCount := by
  unfold update_phy; split <;> rfl

theorem update_data_length_refCount (env : StackEnv) (c : Nat) (s : AppState) :
    (update_data_length env c s).refCount = s.refCount := by
  unfold update_data_length; split <;> rfl

theorem update_mtu_refCount (env : StackEnv) (c : Nat) (s : AppState) :
    (update_mtu env c s).refCount = s.refCount := by
  unfold update_mtu; split <;> rfl

theorem on_connected_my_conn (env : StackEnv) (c : Nat) (s : AppState) :
    (on_connected env c 0 s).my_conn = some c := by
  unfold on_connected
  rw [if_neg (by simp)]
  split
  · rfl
  · rw [update_mtu_my_conn, update_data_length_my_conn, update_phy_my_conn]

theorem on_connected_refCount (env : StackEnv) (c : Nat) (s : AppState) :
    (on_connected env c 0 s).refCount =
      fun k => if k = c then s.refCount k + 1 else s.refCount k := by
  unfold on_connected
  rw [if_neg (by simp)]
  split
  · rfl
  · rw [update_mtu_refCount, update_data_length_refCount, update_phy_refCount]; rfl

theorem on_connected_requests (env : StackEnv) (c : Nat) (s : AppState)
    (hinfo : env.get_info_err = 0) :
    (on_connected env c 0 s).requests =
      s.requests ++ [Request.phyUpdate c, Request.dataLenUpdate c, Request.mtuExchange c] := by
  unfold on_connected update_phy update_data_length update_mtu
  rw [if_neg (by simp), if_neg (by simp [hinfo])]
  split <;> split <;> split <;> simp [bt_conn_ref]

theorem on_connected_log (env : StackEnv) (c : Nat) (s : AppState)
    (hinfo : env.get_info_err = 0) :
    (on_connected env c 0 s).log = s.log ++
      [LogMsg.connectedMsg,
       LogMsg.connParams env.info_interval env.info_timeout env.info_latency] ++
      (if env.phy_update_err ≠ 0 then [LogMsg.phyUpdateFailed env.phy_update_err] else []) ++
      (if env.data_len_err ≠ 0 then [LogMsg.dataLenFailed env.data_len_err]
        else [LogMsg.dataLenRequested BT_GAP_DATA_LEN_MAX BT_GAP_DATA_TIME_MAX]) ++
      (if env.mtu_exchange_err ≠ 0 then [LogMsg.mtuExchangeFailed env.mtu_exchange_err]
        else [LogMsg.mtuPending]) := by
  unfold on_connected update_phy update_data_length update_mtu
  rw [if_neg (by simp), if_neg (by simp [hinfo])]
  split <;> split <;> split <;> simp_all [bt_conn_ref]

theorem step_requests_nonconnected (env : StackEnv) (s : AppState) (e : Event)
    (h : isConnectedEvt e = false) :
    (step env s e).requests = s.requests := by
  cases e with
  | connected c er => simp [isConnectedEvt] at h
  | disconnected c r =>
      show (on_disconnected c r s).requests = s.requests
      unfold on_disconnected bt_conn_unref
      cases s.my_conn <;> rfl
  | le_param_updated c i l t => rfl
  | le_phy_updated c tx rx => rfl
  | le_data_len_updated c a b d e => rfl
  | mtu_exchanged c er =>
      show (exchange_func env c er s).requests = s.requests
      unfold exchange_func; split <;> rfl
  | button bs hc =>
      show (button_changed env bs hc s).requests = s.requests
      unfold button_changed; split
      · split <;> rfl
      · rfl

theorem run_requests_no_connected (env : StackEnv) (evs : List Event) (s : AppState)
    (h : ∀ e ∈ evs, isConnectedEvt e = false) :
    (evs.foldl (step env) s).requests = s.requests := by
  induction evs generalizing s with
  | nil => rfl
  | cons e t ih =>
      rw [List.foldl_cons, ih (step env s e) (fun x hx => h x (List.mem_cons_of_mem e hx)),
        step_requests_nonconnected env s e (h e (List.mem_cons_self e t))]

/- Claim theorems -/

/-- C1: the claim says a second connected event while a connection is active is
rejected/flagged and does not overwrite the stored reference.  Counterexample:
after connected(1) then connected(2), my_conn has been silently overwritten to
handle 2, the reference on handle 1 is still held (leaked, never released), and
the log holds only the normal connection messages of both events — no error or
flag of any kind was emitted. -/
theorem C1_counterexample :
    (run envOK [Event.connected 1 0, Event.connected 2 0]).my_conn = some 2 ∧
    (run envOK [Event.connected 1 0, Event.connected 2 0]).refCount 1 = 1 ∧
    (run envOK [Event.connected 1 0, Event.connected 2 0]).log =
      [LogMsg.connectedMsg, LogMsg.connParams 40 42 0,
       LogMsg.dataLenRequested 251 17040, LogMsg.mtuPending,
       LogMsg.connectedMsg, LogMsg.connParams 40 42 0,
       LogMsg.dataLenRequested 251 17040, LogMsg.mtuPending] := by decide

/-- C1 (amended): on_connected performs no single-slot check: a successful
connected event for a new handle h2 while my_conn already holds h silently
overwrites my_conn with h2, takes a reference on h2, and leaves the old
handle's reference count untouched (the old reference leaks). -/
theorem C1_second_connected_overwrites (env : StackEnv) (s : AppState) (h h2 : Nat)
    (hact : s.my_conn = some h) (hne : h2 ≠ h) :
    (on_connected env h2 0 s).my_conn = some h2 ∧
    (on_connected env h2 0 s).refCount h2 = s.refCount h2 + 1 ∧
    (on_connected env h2 0 s).refCount h = s.refCount h := by
  refine ⟨on_connected_my_conn env h2 s, ?_, ?_⟩
  · rw [on_connected_refCount]; simp
  · rw [on_connected_refCount]; simp [Ne.symm hne]

/-- C1 witness: instantiation of the amended theorem at a state where handle 1
is connected and handle 2 then arrives. -/
theorem C1_second_connected_overwrites_witness :
    (on_connected envOK 2 0 (run envOK [Event.connected 1 0])).my_conn = some 2 ∧
    (on_connected envOK 2 0 (run envOK [Event.connected 1 0])).refCount 2 =
      (run envOK [Event.connected 1 0]).refCount 2 + 1 ∧
    (on_connected envOK 2 0 (run envOK [Event.connected 1 0])).refCount 1 =
      (run envOK [Event.connected 1 0]).refCount 1 :=
  C1_second_connected_overwrites envOK (run envOK [Event.connected 1 0]) 1 2
    (by decide) (by decide)

/-- C2: the claim says a completion callback arriving after the disconnect
verifies the connection is still active and, finding it is not, is a silent
no-op.  Counterexample: after connected(1) then disconnected(1), the stale
phy_updated and mtu_exchanged callbacks still emit their full log lines —
there is no activity check and the no-op is not silent. -/
theorem C2_counterexample :
    (run envOK [Event.connected 1 0, Event.disconnected 1 19,
                Event.le_phy_updated 1 2 2]).log =
      (run envOK [Event.connected 1 0, Event.disconnected 1 19]).log ++
        [LogMsg.txPhyUpdated 2, LogMsg.rxPhyUpdated 2] ∧
    (run envOK [Event.connected 1 0, Event.disconnected 1 19,
                Event.mtu_exchanged 1 0]).log =
      (run envOK [Event.connected 1 0, Event.disconnected 1 19]).log ++
        [LogMsg.mtuResult true, LogMsg.negotiatedMtu 244] := by decide

/-- C2 (amended): the completion handlers (on_le_phy_updated,
on_le_data_length_updated, exchange_func) perform no active-connection check at
all; each is a pure logging function — it changes nothing but the log, cannot
crash, and appends exactly the same log lines whether the connection is the
active one or stale (the appended lines depend only on the event arguments,
shown by comparing with the run from the initial state). -/
theorem C2_completion_handlers_log_only (env : StackEnv) (s : AppState)
    (c tx rx a b d e merr : Nat) :
    on_le_phy_updated c tx rx s =
      { s with log := s.log ++ (on_le_phy_updated c tx rx init).log } ∧
    on_le_data_length_updated c a b d e s =
      { s with log := s.log ++ [LogMsg.dataLenInfo a b d e] } ∧
    exchange_func env c merr s =
      { s with log := s.log ++ (exchange_func env c merr init).log } := by
  refine ⟨?_, ?_, ?_⟩
  · simp [on_le_phy_updated, init]
  · simp [on_le_data_length_updated]
  · unfold exchange_func; split <;> simp [init]

/-- C3: the claim says the data length request is issued from the phy_updated
completion handler and the MTU request from the data_length_updated handler.
Counterexample: after the connected event alone, before any completion callback
has been delivered, all three requests are already in the trace, and the
completion callbacks add none. -/
theorem C3_counterexample :
    (run envOK [Event.connected 1 0]).requests =
      [Request.phyUpdate 1, Request.dataLenUpdate 1, Request.mtuExchange 1] ∧
    (run envOK [Event.connected 1 0, Event.le_phy_updated 1 2 2]).requests =
      (run envOK [Event.connected 1 0]).requests ∧
    (run envOK [Event.connected 1 0, Event.le_phy_updated 1 2 2,
                Event.le_data_len_updated 1 251 2120 251 2120]).requests =
      (run envOK [Event.connected 1 0]).requests := by decide

/-- C3 (amended): all three negotiation requests are issued synchronously,
back to back, from on_connected itself; the completion handlers issue no
requests and only log. -/
theorem C3_all_requests_from_connected (env : StackEnv) (s : AppState)
    (c tx rx a b d e merr : Nat) (hinfo : env.get_info_err = 0) :
    (on_connected env c 0 s).requests =
      s.requests ++ [Request.phyUpdate c, Request.dataLenUpdate c, Request.mtuExchange c] ∧
    (on_le_phy_updated c tx rx s).requests = s.requests ∧
    (on_le_data_length_updated c a b d e s).requests = s.requests ∧
    (exchange_func env c merr s).requests = s.requests := by
  refine ⟨on_connected_requests env c s hinfo, rfl, rfl, ?_⟩
  unfold exchange_func; split <;> rfl

/-- C3 witness: instantiation of the amended theorem at concrete arguments. -/
theorem C3_all_requests_from_connected_witness :
    (on_connected envOK 1 0 init).requests =
      init.requests ++ [Request.phyUpdate 1, Request.dataLenUpdate 1, Request.mtuExchange 1] ∧
    (on_le_phy_updated 1 2 2 init).requests = init.requests ∧
    (on_le_data_length_updated 1 251 2120 251 2120 init).requests = init.requests ∧
    (exchange_func envOK 1 0 init).requests = init.requests :=
  C3_all_requests_from_connected envOK init 1 2 2 251 2120 251 2120 0 (by decide)

/-- C4: for a fresh connection (and bt_conn_get_info succeeding), the requests
issued are exactly PHY update, then data length update, then MTU exchange, in
that order, whatever non-connected events (completion callbacks in any order,
disconnects, button presses) follow. -/
theorem C4_negotiation_order (env : StackEnv) (c : Nat) (evs : List Event)
    (hinfo : env.get_info_err = 0)
    (hnoc : ∀ e ∈ evs, isConnectedEvt e = false) :
    (run env (Event.connected c 0 :: evs)).requests =
      [Request.phyUpdate c, Request.dataLenUpdate c, Request.mtuExchange c] := by
  unfold run
  rw [List.foldl_cons, run_requests_no_connected env evs _ hnoc]
  show (on_connected env c 0 init).requests = _
  rw [on_connected_requests env c init hinfo]
  rfl

/-- C4 witness: the completion callbacks arrive in a scrambled order and the
request trace is still PHY, data length, MTU. -/
theorem C4_negotiation_order_witness :
    (run envOK (Event.connected 1 0 ::
        [Event.le_data_len_updated 1 251 2120 251 2120, Event.le_phy_updated 1 2 2,
         Event.mtu_exchanged 1 0, Event.button 1 1,
         Event.disconnected 1 19])).requests =
      [Request.phyUpdate 1, Request.dataLenUpdate 1, Request.mtuExchange 1] :=
  C4_negotiation_order envOK 1
    [Event.le_data_len_updated 1 251 2120 251 2120, Event.le_phy_updated 1 2 2,
     Event.mtu_exchanged 1 0, Event.button 1 1, Event.disconnected 1 19]
    (by decide) (by decide)

/-- C5: the claim says that after on_connected then on_disconnected for the
same handle the active query returns none.  Counterexample: after connected(1)
then disconnected(1), my_conn still holds the stale handle 1 — on_disconnected
unrefs it but never clears the pointer. -/
theorem C5_counterexample :
    active (run envOK [Event.connected 1 0, Event.disconnected 1 19]) = some 1 ∧
    active (run envOK [Event.connected 1 0, Event.disconnected 1 19]) ≠ none := by decide

/-- C5 (amended): after on_connected then on_disconnected for the same handle,
the application's reference is released (the handle's reference count is
decremented) and the LED is turned off, but my_conn is left pointing at the
stale handle rather than cleared; the slot is reusable only in the sense that a
subsequent on_connected overwrites my_conn with the new handle. -/
theorem C5_disconnect_keeps_stale_pointer (env : StackEnv) (s : AppState)
    (h h2 reason : Nat) (hact : s.my_conn = some h) :
    (on_disconnected h reason s).refCount h = s.refCount h - 1 ∧
    active (on_disconnected h reason s) = some h ∧
    (on_disconnected h reason s).connLed = false ∧
    active (on_connected env h2 0 (on_disconnected h reason s)) = some h2 := by
  have hd : on_disconnected h reason s =
      { s with log := s.log ++ [LogMsg.disconnectedMsg reason]
               connLed := false
               refCount := (fun k => if k = h then s.refCount k - 1 else s.refCount k) } := by
    unfold on_disconnected bt_conn_unref
    simp [hact]
  refine ⟨?_, ?_, ?_, ?_⟩
  · rw [hd]; simp
  · show (on_disconnected h reason s).my_conn = some h
    rw [hd]; exact hact
  · rw [hd]
  · show (on_connected env h2 0 (on_disconnected h reason s)).my_conn = some h2
    exact on_connected_my_conn env h2 _

/-- C5 witness: instantiation at the state reached by connected(1). -/
theorem C5_disconnect_keeps_stale_pointer_witness :
    (on_disconnected 1 19 (run envOK [Event.connected 1 0])).refCount 1 =
      (run envOK [Event.connected 1 0]).refCount 1 - 1 ∧
    active (on_disconnected 1 19 (run envOK [Event.connected 1 0])) = some 1 ∧
    (on_disconnected 1 19 (run envOK [Event.connected 1 0])).connLed = false ∧
    active (on_connected envOK 2 0
      (on_disconnected 1 19 (run envOK [Event.connected 1 0]))) = some 2 :=
  C5_disconnect_keeps_stale_pointer envOK (run envOK [Event.connected 1 0]) 1 2 19
    (by decide)

/-- C6: the claim says a disconnected event whose handle does not match the
tracked connection fails with an unknown-handle error and leaves the tracked
reference count untouched.  Counterexample: after connected(1), a disconnected
event for the unrelated handle 2 still decrements handle 1's reference count to
zero, turns the LED off, and logs a plain disconnect line — no unknown-handle
error exists anywhere in the code. -/
theorem C6_counterexample :
    (run envOK [Event.connected 1 0]).refCount 1 = 1 ∧
    (run envOK [Event.connected 1 0, Event.disconnected 2 19]).refCount 1 = 0 ∧
    (run envOK [Event.connected 1 0, Event.disconnected 2 19]).connLed = false ∧
    (run envOK [Event.connected 1 0, Event.disconnected 2 19]).log =
      (run envOK [Event.connected 1 0]).log ++ [LogMsg.disconnectedMsg 19] := by decide

/-- C6 (amended): on_disconnected never consults the event's handle: for any
event handle, matching or not, it logs the reason, turns the LED off, and
unrefs whatever my_conn holds, decrementing the tracked connection's reference
count while leaving my_conn itself unchanged. -/
theorem C6_no_handle_check (s : AppState) (conn h reason : Nat)
    (hact : s.my_conn = some h) :
    (on_disconnected conn reason s).refCount h = s.refCount h - 1 ∧
    (on_disconnected conn reason s).connLed = false ∧
    (on_disconnected conn reason s).my_conn = some h ∧
    (on_disconnected conn reason s).log = s.log ++ [LogMsg.disconnectedMsg reason] := by
  unfold on_disconnected bt_conn_unref
  simp [hact]

/-- C6 witness: the tracked handle is 1 and the event's handle is 2. -/
theorem C6_no_handle_check_witness :
    (on_disconnected 2 19 (run envOK [Event.connected 1 0])).refCount 1 =
      (run envOK [Event.connected 1 0]).refCount 1 - 1 ∧
    (on_disconnected 2 19 (run envOK [Event.connected 1 0])).connLed = false ∧
    (on_disconnected 2 19 (run envOK [Event.connected 1 0])).my_conn = some 1 ∧
    (on_disconnected 2 19 (run envOK [Event.connected 1 0])).log =
      (run envOK [Event.connected 1 0]).log ++ [LogMsg.disconnectedMsg 19] :=
  C6_no_handle_check (run envOK [Event.connected 1 0]) 2 1 19 (by decide)

/-- C7: the claim says the button handler consults the active connection and
does not attempt a send when none exists.  Counterexample: with no connection
at all (my_conn is NULL), a button change still triggers a
bt_lbs_send_button_state attempt; the resulting error code from the stack is
merely logged. -/
theorem C7_counterexample :
    active init = none ∧
    (button_changed envNoConn 1 1 init).sends = [true] ∧
    (button_changed envNoConn 1 1 init).log =
      [LogMsg.buttonChangedMsg, LogMsg.notifyFailed (-128)] := by decide

/-- C7 (amended): on a user-button change the handler attempts the send
unconditionally, never consulting my_conn; the no-connection case surfaces only
as a non-zero error code returned by the external LBS send, which the handler
logs. -/
theorem C7_send_attempted_unconditionally (env : StackEnv) (s : AppState)
    (bs hc : Nat) (hbtn : hc &&& USER_BUTTON ≠ 0) :
    (button_changed env bs hc s).sends = s.sends ++ [bs != 0] ∧
    (button_changed env bs hc s).my_conn = s.my_conn ∧
    (button_changed env bs hc s).requests = s.requests ∧
    (env.lbs_send_err ≠ 0 →
      (button_changed env bs hc s).log =
        s.log ++ [LogMsg.buttonChangedMsg, LogMsg.notifyFailed env.lbs_send_err]) := by
  by_cases hsend : env.lbs_send_err = 0
  · simp [button_changed, hbtn, hsend]
  · simp [button_changed, hbtn, hsend]

/-- C7 witness: no connection exists, the button changes, and the send is
attempted and its failure logged. -/
theorem C7_send_attempted_unconditionally_witness :
    (button_changed envNoConn 1 1 init).sends = init.sends ++ [true] ∧
    (button_changed envNoConn 1 1 init).my_conn = init.my_conn ∧
    (button_changed envNoConn 1 1 init).requests = init.requests ∧
    (button_changed envNoConn 1 1 init).log =
      init.log ++ [LogMsg.buttonChangedMsg, LogMsg.notifyFailed envNoConn.lbs_send_err] :=
  have hw := C7_send_attempted_unconditionally envNoConn init 1 1 (by decide)
  ⟨hw.1, hw.2.1, hw.2.2.1, hw.2.2.2 (by decide)⟩

/-- C8: on a successful MTU exchange, exchange_func reports the usable payload
as the negotiated ATT MTU minus the 3-byte ATT header; with the stack reporting
an MTU of 247 (envOK) the logged value is 244. -/
theorem C8_mtu_accounting (env : StackEnv) (c : Nat) (s : AppState) :
    (exchange_func env c 0 s).log =
      s.log ++ [LogMsg.mtuResult true, LogMsg.negotiatedMtu ((env.gatt_mtu : Int) - 3)] ∧
    (exchange_func envOK c 0 s).log =
      s.log ++ [LogMsg.mtuResult true, LogMsg.negotiatedMtu 244] := by
  constructor <;> simp [exchange_func, envOK]

/-- C9: negotiation-step failure is non-fatal: even when the PHY and/or data
length requests are rejected by the stack, on_connected still issues all three
requests in order and merely logs each failure. -/
theorem C9_negotiation_failure_nonfatal (env : StackEnv) (s : AppState) (c : Nat)
    (hinfo : env.get_info_err = 0) :
    (on_connected env c 0 s).requests =
      s.requests ++ [Request.phyUpdate c, Request.dataLenUpdate c, Request.mtuExchange c] ∧
    (env.phy_update_err ≠ 0 →
      LogMsg.phyUpdateFailed env.phy_update_err ∈ (on_connected env c 0 s).log) ∧
    (env.data_len_err ≠ 0 →
      LogMsg.dataLenFailed env.data_len_err ∈ (on_connected env c 0 s).log) := by
  refine ⟨on_connected_requests env c s hinfo, fun hp => ?_, fun hd => ?_⟩
  · rw [on_connected_log env c s hinfo]; simp [hp]
  · rw [on_connected_log env c s hinfo]; simp [hd]

/-- C9 witness: with the PHY request failing with -5 and the data length
request failing with -12, all three requests are still issued and both
failures are logged. -/
theorem C9_negotiation_failure_nonfatal_witness :
    (on_connected envNegFail 1 0 init).requests =
      init.requests ++ [Request.phyUpdate 1, Request.dataLenUpdate 1, Request.mtuExchange 1] ∧
    LogMsg.phyUpdateFailed envNegFail.phy_update_err ∈ (on_connected envNegFail 1 0 init).log ∧
    LogMsg.dataLenFailed envNegFail.data_len_err ∈ (on_connected envNegFail 1 0 init).log :=
  have hw := C9_negotiation_failure_nonfatal envNegFail init 1 (by decide)
  ⟨hw.1, hw.2.1 (by decide), hw.2.2 (by decide)⟩

/-- C10: a connected event carrying a non-zero error code makes on_connected
log the error and return with every other component of the state unchanged: no
reference taken, my_conn untouched, LED untouched, no negotiation request
issued. -/
theorem C10_failed_connection_only_logs (env : StackEnv) (conn err : Nat)
    (s : AppState) (herr : err ≠ 0) :
    on_connected env conn err s = { s with log := s.log ++ [LogMsg.connError err] } := by
  unfold on_connected
  rw [if_pos herr]

/-- C10 witness: a connected event with error code 2 from the initial state. -/
theorem C10_failed_connection_only_logs_witness :
    on_connected envOK 1 2 init = { init with log := init.log ++ [LogMsg.connError 2] } :=
  C10_failed_connection_only_logs envOK 1 2 init (by decide)

end BtFund
